import Mathlib

/-!
Verification of the hifitime core (`src/epoch.rs`, `src/lib.rs`) against its
design specification.  The `Epoch` component is translated directly from
`src/epoch.rs`.  The `Duration` component lives in `src/duration.rs`, which is
not part of the sources provided; it is modelled from the specification
(sections 3.1 and 4.1), as noted on every such definition.  All `f64` values
that are integral at design level are modelled as exact rationals.
-/

namespace Hifitime

/-- Modelled from the spec: one century equals 36,525 days =
3,155,760,000,000,000,000 ns (spec section 3.1); `src/duration.rs` is absent. -/
def NANOSECONDS_PER_CENTURY : Int := 3155760000000000000

/-- Modelled from the spec: a Duration is a normalized pair
`(centuries : i16, nanoseconds : u64)` with `0 ≤ nanoseconds < NANOSECONDS_PER_CENTURY`
(spec section 3.1); `src/duration.rs` is absent.  Machine integers are modelled
as unbounded integers; the claims considered here never reach the i16 bounds. -/
structure Duration where
  centuries : Int
  nanoseconds : Int
  deriving DecidableEq

namespace Duration

/-- Normalization invariant of spec section 3.1. -/
def wf (d : Duration) : Prop :=
  0 ≤ d.nanoseconds ∧ d.nanoseconds < NANOSECONDS_PER_CENTURY

instance (d : Duration) : Decidable d.wf := by
  unfold wf; infer_instance

/-- The integer value in nanoseconds: `centuries * NS_PER_CENTURY + nanoseconds`
(spec section 3.1). -/
def total_nanoseconds (d : Duration) : Int :=
  d.centuries * NANOSECONDS_PER_CENTURY + d.nanoseconds

/-- Modelled from the spec: split a total nanosecond count into
`(centuries, nanoseconds)` with Euclidean remainder (spec section 4.1,
`from_f64`); `src/duration.rs` is absent. -/
def from_total_nanoseconds (t : Int) : Duration :=
  ⟨t / NANOSECONDS_PER_CENTURY, t % NANOSECONDS_PER_CENTURY⟩

/-- Modelled from the spec: `from_parts(centuries, nanoseconds)` stores the two
fields as given (spec section 4.1); `src/duration.rs` is absent. -/
def from_parts (centuries : Int) (nanoseconds : Int) : Duration :=
  ⟨centuries, nanoseconds⟩

/-- Mirrors `Duration::to_parts` as used by `Epoch::to_tai_parts` and
`Epoch::as_gpst_nanoseconds`: returns the two stored fields. -/
def to_parts (d : Duration) : Int × Int :=
  (d.centuries, d.nanoseconds)

/-- Modelled from the spec: field-wise addition with carry,
`ns_sum = a.ns + b.ns`, `carry = ns_sum / NS_PER_CENTURY`,
`centuries = a.c + b.c + carry`, `nanoseconds = ns_sum - carry * NS_PER_CENTURY`
(spec section 4.1); `src/duration.rs` is absent. -/
def add (a b : Duration) : Duration :=
  ⟨a.centuries + b.centuries + (a.nanoseconds + b.nanoseconds) / NANOSECONDS_PER_CENTURY,
    (a.nanoseconds + b.nanoseconds) -
      ((a.nanoseconds + b.nanoseconds) / NANOSECONDS_PER_CENTURY) * NANOSECONDS_PER_CENTURY⟩

/-- Modelled from the spec: field-wise subtraction with borrow
(spec section 4.1); `src/duration.rs` is absent. -/
def sub (a b : Duration) : Duration :=
  if a.nanoseconds < b.nanoseconds then
    ⟨a.centuries - b.centuries - 1, a.nanoseconds - b.nanoseconds + NANOSECONDS_PER_CENTURY⟩
  else
    ⟨a.centuries - b.centuries, a.nanoseconds - b.nanoseconds⟩

/-- Lexicographic order on `(centuries, nanoseconds)` (spec section 4.1,
ordering and equality). -/
def le (a b : Duration) : Prop :=
  a.centuries < b.centuries ∨ (a.centuries = b.centuries ∧ a.nanoseconds ≤ b.nanoseconds)

instance (a b : Duration) : Decidable (a.le b) := by
  unfold le; infer_instance

end Duration

/-- Modelled from the spec: unit factories for nanosecond, microsecond,
millisecond, second, minute, hour, day, week, century (spec section 4.1);
`src/duration.rs` is absent. -/
inductive Unit
  | Nanosecond
  | Microsecond
  | Millisecond
  | Second
  | Minute
  | Hour
  | Day
  | Week
  | Century
  deriving DecidableEq

/-- Nanoseconds per unit. -/
def Unit.factor : Unit → Int
  | .Nanosecond => 1
  | .Microsecond => 1000
  | .Millisecond => 1000000
  | .Second => 1000000000
  | .Minute => 60000000000
  | .Hour => 3600000000000
  | .Day => 86400000000000
  | .Week => 604800000000000
  | .Century => NANOSECONDS_PER_CENTURY

/-- Modelled from the spec: integer scalar multiplication (`i64 * Unit`)
distributes the total nanosecond count over the two fields (spec section 4.1);
`src/duration.rs` is absent. -/
def Unit.mulInt (u : Unit) (n : Int) : Duration :=
  Duration.from_total_nanoseconds (n * u.factor)

/-- Modelled from the spec: `from_f64(value, unit)` multiplies by the unit's
ns-factor and splits into `(centuries, nanoseconds)` with Euclidean remainder
(spec section 4.1); `src/duration.rs` is absent.  The `f64` value is modelled
as an exact rational and a fractional nanosecond remainder is dropped. -/
def Unit.mulRat (u : Unit) (q : ℚ) : Duration :=
  Duration.from_total_nanoseconds ⌊q * (u.factor : ℚ)⌋

/-- Modelled from the spec: `in_unit(u)` returns
`(centuries * NS_PER_CENTURY + nanoseconds) / ns_per(u)` (spec section 4.1),
modelled as an exact rational; `src/duration.rs` is absent. -/
def Duration.in_unit (d : Duration) (u : Unit) : ℚ :=
  (d.total_nanoseconds : ℚ) / (u.factor : ℚ)

/-- `in_seconds()` is `in_unit(Second)` (spec section 4.1). -/
def Duration.in_seconds (d : Duration) : ℚ :=
  d.in_unit Unit.Second

/-- Modelled from the spec: `floor(step)` returns `self − (self mod step)` where
`mod` is the Euclidean remainder on total nanoseconds (spec section 4.1);
`src/duration.rs` is absent. -/
def Duration.floor (d step : Duration) : Duration :=
  Duration.from_total_nanoseconds
    (d.total_nanoseconds - d.total_nanoseconds % step.total_nanoseconds)

/-- Modelled from the spec: `ceil(step)` is `floor(self + step − 1 ns)` when the
remainder is nonzero, and `self` otherwise (spec section 4.1);
`src/duration.rs` is absent. -/
def Duration.ceil (d step : Duration) : Duration :=
  if d.total_nanoseconds % step.total_nanoseconds = 0 then d
  else
    Duration.floor
      (Duration.from_total_nanoseconds (d.total_nanoseconds + step.total_nanoseconds - 1)) step

/-- Modelled from the spec: `round(step)` picks `floor` or `ceil`, whichever is
nearer; the spec states twice that ties round up (section 4.1 "Ties round up"
and section 8 property 8 "ties going to ceil"), so the tie case takes `ceil`;
`src/duration.rs` is absent. -/
def Duration.round (d step : Duration) : Duration :=
  if 2 * (d.total_nanoseconds % step.total_nanoseconds) < step.total_nanoseconds then
    d.floor step
  else
    d.ceil step

/-- `ParsingErrors` from `src/lib.rs`. -/
inductive ParsingErrors
  | ParseIntError
  | TimeSystem
  | ISO8601
  | UnknownFormat
  | UnknownUnit
  | UnsupportedTimeSystem
  deriving DecidableEq

/-- `Errors` from `src/lib.rs`. -/
inductive Errors
  | Carry
  | ParseError (kind : ParsingErrors)
  | ConversionOverlapError (hi lo : ℚ)
  | Overflow
  | SystemTimeError
  deriving DecidableEq

/-- `TimeSystem` from `src/lib.rs`. -/
inductive TimeSystem
  | ET
  | TAI
  | TT
  | TDB
  | UTC
  deriving DecidableEq

/-- `ET_EPOCH_S` from `src/lib.rs`. -/
def ET_EPOCH_S : Int := 3155716800

/-- `SECONDS_GPS_TAI_OFFSET` from `src/lib.rs` (an exactly representable f64). -/
def SECONDS_GPS_TAI_OFFSET : ℚ := 80 * 31557600 + 4 * 86400 + 19

/-- `SECONDS_GPS_TAI_OFFSET_I64` from `src/lib.rs`. -/
def SECONDS_GPS_TAI_OFFSET_I64 : Int := 80 * 31557600 + 4 * 86400 + 19

/-- `TT_OFFSET_MS` from `src/epoch.rs`. -/
def TT_OFFSET_MS : Int := 32184

/-- `ET_OFFSET_US` from `src/epoch.rs`. -/
def ET_OFFSET_US : Int := 32184935

/-- The integer values of the `LEAP_SECONDS` table of `src/epoch.rs`. -/
def LEAP_SECONDS_INT : List Int := [
  2272060800,
  2287785600,
  2303683200,
  2335219200,
  2366755200,
  2398291200,
  2429913600,
  2461449600,
  2492985600,
  2524521600,
  2571782400,
  2603318400,
  2634854400,
  2698012800,
  2776982400,
  2840140800,
  2871676800,
  2918937600,
  2950473600,
  2982009600,
  3029443200,
  3076704000,
  3124137600,
  3345062400,
  3439756800,
  3550089600,
  3644697600,
  3692217600]

/-- `LEAP_SECONDS` from `src/epoch.rs` (f64 entries, all integral and exactly
representable). -/
def LEAP_SECONDS : List ℚ :=
  LEAP_SECONDS_INT.map (fun x => (x : ℚ))

/-- `JANUARY_YEARS` from `src/epoch.rs`. -/
def JANUARY_YEARS : List Int := [
  1972, 1973, 1974, 1975, 1976, 1977, 1978, 1979, 1980, 1988, 1990, 1991, 1996, 1999, 2006, 2009,
  2017]

/-- `JULY_YEARS` from `src/epoch.rs`. -/
def JULY_YEARS : List Int := [
  1972, 1981, 1982, 1983, 1985, 1992, 1993, 1994, 1997, 2012, 2015]

/-- `USUAL_DAYS_PER_MONTH` from `src/epoch.rs`. -/
def USUAL_DAYS_PER_MONTH : List Nat := [31, 28, 31, 30, 31, 30, 31, 31, 30, 31, 30, 31]

/-- `is_leap_year` from `src/epoch.rs`.  Rust `%` differs from Lean `%` on
negative operands, but the `== 0` tests agree since both remainders vanish
exactly on divisibility. -/
def is_leap_year (year : Int) : Bool :=
  (year % 4 == 0 && year % 100 != 0) || year % 400 == 0

/-- `is_gregorian_valid` from `src/epoch.rs`.  `f64::from(nanos) > 1e9` is
exact for `u32`, hence modelled as `nanos > 10^9`. -/
def is_gregorian_valid (year : Int) (month day hour minute second nanos : Nat) : Bool :=
  let max_seconds : Nat :=
    if (month == 12 || month == 6) && day == USUAL_DAYS_PER_MONTH.getD (month - 1) 0
        && hour == 23 && minute == 59
        && ((month == 6 && JULY_YEARS.contains year)
          || (month == 12 && JANUARY_YEARS.contains (year + 1))) then
      60
    else
      59
  if month == 0 || month > 12 || day == 0 || day > 31 || hour > 24 || minute > 59
      || second > max_seconds || nanos > 1000000000 then
    false
  else if day > USUAL_DAYS_PER_MONTH.getD (month - 1) 0
      && (month != 2 || !(is_leap_year year)) then
    false
  else
    true

/-- The leap-minute condition as claim C4 words it: the last minute of June
with the year in `JULY_YEARS`, or the last minute of December with the next
year in `JANUARY_YEARS`. -/
def spec_leap_minute (year : Int) (month day hour minute : Nat) : Prop :=
  (month = 6 ∧ day = 30 ∧ hour = 23 ∧ minute = 59 ∧ year ∈ JULY_YEARS) ∨
  (month = 12 ∧ day = 31 ∧ hour = 23 ∧ minute = 59 ∧ (year + 1) ∈ JANUARY_YEARS)

/-- Days in a month under the Gregorian leap-year rule, as claim C4 words it. -/
def spec_days_in (month : Nat) (year : Int) : Nat :=
  if month = 2 then (if is_leap_year year then 29 else 28)
  else USUAL_DAYS_PER_MONTH.getD (month - 1) 0

/-- The validity predicate exactly as claim C4 states it (spec side of the
refinement; compare with `is_gregorian_valid` from the source). -/
def spec_gregorian_valid (year : Int) (month day hour minute second nanos : Nat) : Prop :=
  1 ≤ month ∧ month ≤ 12 ∧ 1 ≤ day ∧ day ≤ spec_days_in month year ∧ hour ≤ 24 ∧
  minute ≤ 59 ∧ nanos < 1000000000 ∧
  (second ≤ 59 ∨ (second = 60 ∧ spec_leap_minute year month day hour minute))

/-- The day bound the code actually enforces: February of a leap year admits
up to 31 days (only the global `day ≤ 31` check applies to it). -/
def amended_days_in (month : Nat) (year : Int) : Nat :=
  if month = 2 ∧ is_leap_year year = true then 31 else USUAL_DAYS_PER_MONTH.getD (month - 1) 0

/-- Claim C4 amended to the code's behaviour: the nanosecond bound is
`ns ≤ 10^9` (the code rejects only `ns > 10^9`) and February of a leap year
admits up to 31 days. -/
def amended_gregorian_valid (year : Int) (month day hour minute second nanos : Nat) : Prop :=
  1 ≤ month ∧ month ≤ 12 ∧ 1 ≤ day ∧ day ≤ amended_days_in month year ∧ hour ≤ 24 ∧
  minute ≤ 59 ∧ nanos ≤ 1000000000 ∧
  (second ≤ 59 ∨ (second = 60 ∧ spec_leap_minute year month day hour minute))

instance (year : Int) (month day hour minute : Nat) :
    Decidable (spec_leap_minute year month day hour minute) := by
  unfold spec_leap_minute; infer_instance

instance (year : Int) (month day hour minute second nanos : Nat) :
    Decidable (spec_gregorian_valid year month day hour minute second nanos) := by
  unfold spec_gregorian_valid; infer_instance

instance (year : Int) (month day hour minute second nanos : Nat) :
    Decidable (amended_gregorian_valid year month day hour minute second nanos) := by
  unfold amended_gregorian_valid; infer_instance

/-- `Epoch` from `src/epoch.rs`: a Duration of TAI time since J1900. -/
structure Epoch where
  dur : Duration
  deriving DecidableEq

/-- `UNIX_REF_EPOCH` from `src/lib.rs`. -/
def UNIX_REF_EPOCH : Epoch :=
  ⟨⟨0, 2208988800000000000⟩⟩

/-- Outcome of `Epoch::maybe_from_gregorian`: `Ok`, `Err`, or the `panic!` in
the UTC arm. -/
inductive GregOutcome
  | ok (e : Epoch)
  | err (er : Errors)
  | panicked
  deriving DecidableEq

namespace Epoch

/-- `impl Sub for Epoch`: `Epoch − Epoch = Duration`. -/
def epochSub (a b : Epoch) : Duration :=
  a.dur.sub b.dur

/-- The derived ordering of `Epoch` (`derive PartialOrd, Ord`): the
lexicographic order of the underlying Duration. -/
def le (a b : Epoch) : Prop :=
  a.dur.le b.dur

/-- Loop body of `Epoch::get_num_leap_seconds`: scan the table while
`in_seconds ≥ entry`; the first hit sets the count to 10, every further hit
adds 1, and the loop breaks at the first entry exceeding the epoch. -/
def leap_count_loop (s : ℚ) : List ℚ → Int → Int
  | [], cnt => cnt
  | ts :: rest, cnt =>
    if s ≥ ts then leap_count_loop s rest (if cnt = 0 then 10 else cnt + 1)
    else cnt

/-- `Epoch::get_num_leap_seconds` from `src/epoch.rs`. -/
def get_num_leap_seconds (e : Epoch) : Int :=
  leap_count_loop e.dur.in_seconds LEAP_SECONDS 0

/-- `Epoch::from_tai_duration`. -/
def from_tai_duration (d : Duration) : Epoch :=
  ⟨d⟩

/-- `Epoch::from_tai_parts`. -/
def from_tai_parts (centuries nanoseconds : Int) : Epoch :=
  ⟨Duration.from_parts centuries nanoseconds⟩

/-- `Epoch::from_tai_seconds` (the finiteness assertion is vacuous on ℚ). -/
def from_tai_seconds (seconds : ℚ) : Epoch :=
  ⟨Unit.Second.mulRat seconds⟩

/-- `Epoch::from_utc_seconds`. -/
def from_utc_seconds (seconds : ℚ) : Epoch :=
  let e := from_tai_seconds seconds
  let cnt := e.get_num_leap_seconds
  ⟨e.dur.add (Unit.Second.mulInt cnt)⟩

/-- `Epoch::from_gpst_seconds`. -/
def from_gpst_seconds (seconds : ℚ) : Epoch :=
  ⟨(from_tai_seconds seconds).dur.add (Unit.Second.mulRat SECONDS_GPS_TAI_OFFSET)⟩

/-- `Epoch::from_gpst_nanoseconds`: wraps the raw `u64` count in a Duration
with zero centuries, then adds `Unit::Second * SECONDS_GPS_TAI_OFFSET`. -/
def from_gpst_nanoseconds (nanoseconds : Int) : Epoch :=
  ⟨(Duration.mk 0 nanoseconds).add (Unit.Second.mulRat SECONDS_GPS_TAI_OFFSET)⟩

/-- `Epoch::as_tai_seconds`. -/
def as_tai_seconds (e : Epoch) : ℚ :=
  e.dur.in_seconds

/-- `Epoch::as_tai_duration`. -/
def as_tai_duration (e : Epoch) : Duration :=
  e.dur

/-- `Epoch::to_tai_parts`. -/
def to_tai_parts (e : Epoch) : Int × Int :=
  e.dur.to_parts

/-- `Epoch::as_utc_duration`: `self.0 + i64::from(-cnt) * Unit::Second`. -/
def as_utc_duration (e : Epoch) : Duration :=
  e.dur.add (Unit.Second.mulInt (-e.get_num_leap_seconds))

/-- `Epoch::as_utc`. -/
def as_utc (e : Epoch) (u : Unit) : ℚ :=
  e.as_utc_duration.in_unit u

/-- `Epoch::as_utc_seconds`. -/
def as_utc_seconds (e : Epoch) : ℚ :=
  e.as_utc Unit.Second

/-- `Epoch::as_gpst_duration`. -/
def as_gpst_duration (e : Epoch) : Duration :=
  e.as_tai_duration.sub (Unit.Second.mulInt SECONDS_GPS_TAI_OFFSET_I64)

/-- `Epoch::as_gpst_seconds`. -/
def as_gpst_seconds (e : Epoch) : ℚ :=
  e.as_gpst_duration.in_seconds

/-- `Epoch::as_gpst_nanoseconds`: errors with `Overflow` when the centuries
part of the GPST duration is nonzero, otherwise returns the nanoseconds part. -/
def as_gpst_nanoseconds (e : Epoch) : Except Errors Int :=
  let parts := e.as_gpst_duration.to_parts
  if parts.1 ≠ 0 then Except.error Errors.Overflow else Except.ok parts.2

/-- `Epoch::as_unix_duration`. -/
def as_unix_duration (e : Epoch) : Duration :=
  (e.dur.add (Unit.Second.mulInt (-e.get_num_leap_seconds))).sub UNIX_REF_EPOCH.as_utc_duration

/-- `Epoch::as_unix`. -/
def as_unix (e : Epoch) (u : Unit) : ℚ :=
  e.as_unix_duration.in_unit u

/-- `Epoch::as_unix_seconds`. -/
def as_unix_seconds (e : Epoch) : ℚ :=
  e.as_unix Unit.Second

/-- `Epoch::from_unix_seconds`. -/
def from_unix_seconds (seconds : ℚ) : Epoch :=
  from_utc_seconds ((UNIX_REF_EPOCH.as_utc_duration.add (Unit.Second.mulRat seconds)).in_unit
    Unit.Second)

/-- Real-valued scalar multiplication, modelling the `f64 * Unit` products on
the transcendental TDB path (spec section 4.1 `from_f64`, with the fractional
nanosecond remainder dropped). -/
noncomputable def mulUnitReal (u : Unit) (r : ℝ) : Duration :=
  Duration.from_total_nanoseconds ⌊r * (u.factor : ℝ)⌋

/-- `Epoch::from_tdb_seconds_d` from `src/epoch.rs`; the `f64` trigonometry is
modelled over the reals. -/
noncomputable def from_tdb_seconds_d (duration : Duration) : Epoch :=
  let tt_duration := duration.sub (Unit.Millisecond.mulInt TT_OFFSET_MS)
  let tt_centuries_j2k : ℝ :=
    ((tt_duration.sub (Unit.Second.mulInt ET_EPOCH_S)).in_unit Unit.Century : ℚ)
  let g_rad : ℝ := (Real.pi / 180) * (357.528 + 35999.050 * tt_centuries_j2k)
  let inner : ℝ := g_rad + 0.0167 * Real.sin g_rad
  ⟨tt_duration.add (mulUnitReal Unit.Second ((ET_EPOCH_S : ℝ) - 0.001658 * Real.sin inner))⟩

/-- `Epoch::maybe_from_gregorian` from `src/epoch.rs`.  The year and month
loops accumulate one extra day per leap year and the usual days per prior
month; the `panic!` in the UTC arm is the `panicked` outcome. -/
noncomputable def maybe_from_gregorian (year : Int) (month day hour minute second nanos : Nat)
    (ts : TimeSystem) : GregOutcome :=
  if !(is_gregorian_valid year month day hour minute second nanos) then
    GregOutcome.err Errors.Carry
  else
    let d1 := Unit.Day.mulInt (365 * (year - 1900).natAbs)
    let d2 := (List.range (year - 1900).toNat).foldl
      (fun acc i => if is_leap_year (1900 + (i : Int)) then acc.add (Unit.Day.mulInt 1) else acc)
      d1
    let d3 := (List.range (month - 1)).foldl
      (fun acc m => acc.add (Unit.Day.mulInt (USUAL_DAYS_PER_MONTH.getD m 0))) d2
    let d4 := if is_leap_year year && month > 2 then d3.add (Unit.Day.mulInt 1) else d3
    let d5 := ((((d4.add (Unit.Day.mulInt ((day : Int) - 1))).add
      (Unit.Hour.mulInt hour)).add (Unit.Minute.mulInt minute)).add
      (Unit.Second.mulInt second)).add (Unit.Nanosecond.mulInt nanos)
    let d6 := if second == 60 then d5.sub (Unit.Second.mulInt 1) else d5
    match ts with
    | TimeSystem.TAI => GregOutcome.ok ⟨d6⟩
    | TimeSystem.TT => GregOutcome.ok ⟨d6.sub (Unit.Millisecond.mulInt TT_OFFSET_MS)⟩
    | TimeSystem.ET => GregOutcome.ok
        ⟨(d6.add (Unit.Second.mulInt ET_EPOCH_S)).sub (Unit.Microsecond.mulInt ET_OFFSET_US)⟩
    | TimeSystem.TDB => GregOutcome.ok (from_tdb_seconds_d d6)
    | TimeSystem.UTC => GregOutcome.panicked

/-- `Epoch::maybe_from_gregorian_tai`. -/
noncomputable def maybe_from_gregorian_tai (year : Int) (month day hour minute second nanos : Nat) :
    GregOutcome :=
  maybe_from_gregorian year month day hour minute second nanos TimeSystem.TAI

/-- `Epoch::maybe_from_gregorian_utc`: build as if TAI, then add the leap
seconds counted at the as-if-TAI instant. -/
noncomputable def maybe_from_gregorian_utc (year : Int) (month day hour minute second nanos : Nat) :
    GregOutcome :=
  match maybe_from_gregorian_tai year month day hour minute second nanos with
  | GregOutcome.ok if_tai =>
    GregOutcome.ok ⟨if_tai.dur.add (Unit.Second.mulInt if_tai.get_num_leap_seconds)⟩
  | other => other

/-- `Epoch::from_gregorian_utc`; the `expect` panic on an invalid date is
modelled by the zero epoch (every use below is on a valid date). -/
noncomputable def from_gregorian_utc (year : Int) (month day hour minute second nanos : Nat) :
    Epoch :=
  match maybe_from_gregorian_utc year month day hour minute second nanos with
  | GregOutcome.ok e => e
  | _ => ⟨⟨0, 0⟩⟩

/-- `Epoch::from_gregorian_tai_hms`; the `expect` panic on an invalid date is
modelled by the zero epoch (every use below is on a valid date). -/
noncomputable def from_gregorian_tai_hms (year : Int) (month day hour minute second : Nat) :
    Epoch :=
  match maybe_from_gregorian_tai year month day hour minute second 0 with
  | GregOutcome.ok e => e
  | _ => ⟨⟨0, 0⟩⟩

/-- `Epoch::floor`. -/
def floor (e : Epoch) (duration : Duration) : Epoch :=
  ⟨e.dur.floor duration⟩

/-- `Epoch::ceil`. -/
def ceil (e : Epoch) (duration : Duration) : Epoch :=
  ⟨e.dur.ceil duration⟩

/-- `Epoch::round`. -/
def round (e : Epoch) (duration : Duration) : Epoch :=
  ⟨e.dur.round duration⟩

end Epoch

/-- Truncation toward zero, as Rust `f64::trunc`. -/
def ratTrunc (q : ℚ) : Int :=
  if 0 ≤ q then ⌊q⌋ else ⌈q⌉

/-- Rust `%` on f64 (`fmod`): remainder with the sign of the dividend. -/
def rust_fmod (lhs rhs : ℚ) : ℚ :=
  lhs - rhs * (ratTrunc (lhs / rhs) : ℚ)

/-- `div_euclid_f64` from `src/epoch.rs` (returns a whole number, modelled as
an integer). -/
def div_euclid_f64 (lhs rhs : ℚ) : Int :=
  let q := ratTrunc (lhs / rhs)
  if rust_fmod lhs rhs < 0 then (if rhs > 0 then q - 1 else q + 1) else q

/-- `rem_euclid_f64` from `src/epoch.rs`. -/
def rem_euclid_f64 (lhs rhs : ℚ) : ℚ :=
  let r := rust_fmod lhs rhs
  if r < 0 then r + |rhs| else r

/-- `div_rem_f64` from `src/epoch.rs`; the `as i32` cast on the quotient is
modelled as an unbounded integer. -/
def div_rem_f64 (me rhs : ℚ) : Int × ℚ :=
  (div_euclid_f64 me rhs, rem_euclid_f64 me rhs)

/-- The result tuple `(year, month, day, hour, minute, second, nanos)` of
`Epoch::compute_gregorian`. -/
structure GregorianParts where
  year : Int
  month : Nat
  day : Nat
  hour : Nat
  minute : Nat
  second : Nat
  nanos : Nat
  deriving DecidableEq

/-- Month scan of `Epoch::compute_gregorian`: keep adding whole months of
seconds (plus a leap day in February) while the cumulative count does not
exceed `year_fraction`; returns the month reached and the cumulative seconds
through it.  The fuel bounds the loop at 12 iterations; the caller's remainder
bound keeps it from running out (the Rust loop would index out of bounds
otherwise). -/
def month_scan (leap : Bool) (year_fraction : ℚ) :
    Nat → Nat → ℚ → Nat × ℚ
  | 0, month, stm => (month, stm)
  | fuel + 1, month, stm =>
    let stm' := stm + 86400 * (USUAL_DAYS_PER_MONTH.getD (month - 1) 0 : ℚ) +
      (if leap && month == 2 then (86400 : ℚ) else 0)
    if stm' > year_fraction then (month, stm')
    else month_scan leap year_fraction fuel (month + 1) stm'

/-- `Epoch::compute_gregorian` from `src/epoch.rs`, with f64 modelled as exact
rationals.  The `as u8` / `as u32` casts of the nonnegative field values are
modelled by `Int.toNat` of the floor (float-to-int casts truncate). -/
def Epoch.compute_gregorian (absolute_seconds : ℚ) : GregorianParts :=
  let p1 := div_rem_f64 absolute_seconds (365 * 86400)
  let year0 := p1.1 + 1900
  let year_fraction := p1.2 -
    86400 * (((List.range (year0 - 1900).toNat).filter
      (fun i => is_leap_year (1900 + (i : Int)))).length : ℚ)
  let ym :=
    if year_fraction < 0 then ((12 : Nat), year0 - 1, (0 : ℚ))
    else
      let ms := month_scan (is_leap_year year0) year_fraction 12 1 0
      (ms.1, year0, ms.2)
  let month1 := ym.1
  let year1 := ym.2.1
  let seconds_til_this_month := ym.2.2
  let days_this_month := USUAL_DAYS_PER_MONTH.getD (month1 - 1) 0 +
    (if month1 == 2 && is_leap_year year1 then 1 else 0)
  let month_fraction := (div_rem_f64 (year_fraction - seconds_til_this_month)
    ((days_this_month : ℚ) * 86400)).2
  let pday := div_rem_f64 month_fraction 86400
  let day_fraction := pday.2
  let ymd :=
    if pday.1 < 0 then
      let m1 := month1 - 1
      if m1 == 0 then (year1 - 1, (12 : Nat), (USUAL_DAYS_PER_MONTH.getD 11 0 : Int))
      else (year1, m1, (USUAL_DAYS_PER_MONTH.getD (m1 - 1) 0 : Int))
    else (year1, month1, pday.1)
  let day := ymd.2.2 + 1
  let ph := div_rem_f64 day_fraction (60 * 60)
  let pm := div_rem_f64 ph.2 60
  let secs := pm.2
  let nanos := ⌊(div_rem_f64 secs 1).2 * 1000000000⌋
  ⟨ymd.1, ymd.2.1, day.toNat, ph.1.toNat, pm.1.toNat, (⌊secs⌋).toNat, nanos.toNat⟩

/-- `Epoch::as_gregorian_utc`. -/
def Epoch.as_gregorian_utc (e : Epoch) : GregorianParts :=
  Epoch.compute_gregorian e.as_utc_seconds

/-- Integer shadow of `leap_count_loop`: the comparison
`in_seconds ≥ entry` becomes `entry * 10^9 ≤ total_nanoseconds`. -/
def leap_count_loop_total (t : Int) : List Int → Int → Int
  | [], cnt => cnt
  | ts :: rest, cnt =>
    if ts * 1000000000 ≤ t then
      leap_count_loop_total t rest (if cnt = 0 then 10 else cnt + 1)
    else cnt

instance : DecidableEq (Except Errors Int) := fun a b =>
  match a, b with
  | Except.ok x, Except.ok y =>
    if h : x = y then isTrue (by rw [h]) else isFalse (fun hc => h (by cases hc; rfl))
  | Except.error x, Except.error y =>
    if h : x = y then isTrue (by rw [h]) else isFalse (fun hc => h (by cases hc; rfl))
  | Except.ok _, Except.error _ => isFalse (fun hc => by cases hc)
  | Except.error _, Except.ok _ => isFalse (fun hc => by cases hc)


namespace Duration

theorem total_from_total (t : Int) :
    (from_total_nanoseconds t).total_nanoseconds = t := by
  simp only [from_total_nanoseconds, total_nanoseconds, NANOSECONDS_PER_CENTURY]
  omega

theorem wf_from_total (t : Int) : (from_total_nanoseconds t).wf := by
  simp only [from_total_nanoseconds, wf, NANOSECONDS_PER_CENTURY]
  omega

theorem from_total_total (d : Duration) (h : d.wf) :
    from_total_nanoseconds d.total_nanoseconds = d := by
  obtain ⟨c, n⟩ := d
  obtain ⟨h0, h1⟩ := h
  simp only [NANOSECONDS_PER_CENTURY] at h0 h1
  simp only [from_total_nanoseconds, total_nanoseconds, NANOSECONDS_PER_CENTURY,
    Duration.mk.injEq]
  omega

theorem total_add (a b : Duration) :
    (a.add b).total_nanoseconds = a.total_nanoseconds + b.total_nanoseconds := by
  simp only [add, total_nanoseconds, NANOSECONDS_PER_CENTURY]
  ring

theorem wf_add (a b : Duration) (ha : 0 ≤ a.nanoseconds) (hb : 0 ≤ b.nanoseconds) :
    (a.add b).wf := by
  simp only [add, wf, NANOSECONDS_PER_CENTURY] at *
  omega

theorem total_sub (a b : Duration) :
    (a.sub b).total_nanoseconds = a.total_nanoseconds - b.total_nanoseconds := by
  simp only [sub, total_nanoseconds, NANOSECONDS_PER_CENTURY]
  split <;> simp only <;> ring

theorem wf_sub (a b : Duration) (ha : a.wf) (hb : b.wf) : (a.sub b).wf := by
  obtain ⟨ha0, ha1⟩ := ha
  obtain ⟨hb0, hb1⟩ := hb
  simp only [NANOSECONDS_PER_CENTURY] at ha0 ha1 hb0 hb1
  simp only [sub, wf, NANOSECONDS_PER_CENTURY]
  split <;> simp only <;> omega

theorem add_eq_from_total (a b : Duration) (ha : 0 ≤ a.nanoseconds)
    (hb : 0 ≤ b.nanoseconds) :
    a.add b = from_total_nanoseconds (a.total_nanoseconds + b.total_nanoseconds) := by
  have h := from_total_total (a.add b) (wf_add a b ha hb)
  rw [total_add] at h
  exact h.symm

theorem sub_eq_from_total (a b : Duration) (ha : a.wf) (hb : b.wf) :
    a.sub b = from_total_nanoseconds (a.total_nanoseconds - b.total_nanoseconds) := by
  have h := from_total_total (a.sub b) (wf_sub a b ha hb)
  rw [total_sub] at h
  exact h.symm

theorem wf_eq_of_total_eq (a b : Duration) (ha : a.wf) (hb : b.wf)
    (h : a.total_nanoseconds = b.total_nanoseconds) : a = b := by
  rw [← from_total_total a ha, ← from_total_total b hb, h]

theorem le_iff_total (a b : Duration) (ha : a.wf) (hb : b.wf) :
    a.le b ↔ a.total_nanoseconds ≤ b.total_nanoseconds := by
  unfold le wf total_nanoseconds NANOSECONDS_PER_CENTURY at *
  constructor
  · rintro (h | ⟨h1, h2⟩) <;> nlinarith
  · intro h
    rcases lt_trichotomy a.centuries b.centuries with hc | hc | hc
    · exact Or.inl hc
    · exact Or.inr ⟨hc, by nlinarith⟩
    · exfalso; nlinarith

end Duration

theorem Unit.factor_pos (u : Unit) : 0 < u.factor := by
  cases u <;> decide

theorem Unit.factor_cast_ne (u : Unit) : ((u.factor : ℚ)) ≠ 0 := by
  have h := Unit.factor_pos u
  exact_mod_cast h.ne'

theorem Unit.mulRat_div_factor (u : Unit) (t : Int) :
    u.mulRat ((t : ℚ) / ((u.factor : Int) : ℚ)) = Duration.from_total_nanoseconds t := by
  unfold Unit.mulRat
  rw [div_mul_cancel₀ _ (Unit.factor_cast_ne u), Int.floor_intCast]

theorem Unit.mulInt_total (u : Unit) (n : Int) :
    (u.mulInt n).total_nanoseconds = n * u.factor := by
  unfold Unit.mulInt
  exact Duration.total_from_total _

theorem Unit.mulInt_wf (u : Unit) (n : Int) : (u.mulInt n).wf :=
  Duration.wf_from_total _

theorem gps_offset_dur :
    Unit.Second.mulRat SECONDS_GPS_TAI_OFFSET =
      Duration.from_total_nanoseconds 2524953619000000000 := by
  unfold Unit.mulRat SECONDS_GPS_TAI_OFFSET
  have h : ((80 * 31557600 + 4 * 86400 + 19 : ℚ)) * ((Unit.Second.factor : Int) : ℚ) =
      ((2524953619000000000 : Int) : ℚ) := by
    norm_num [Unit.factor]
  rw [h, Int.floor_intCast]

theorem leap_count_loop_map (t : Int) (l : List Int) (cnt : Int) :
    Epoch.leap_count_loop ((t : ℚ) / ((1000000000 : Int) : ℚ)) (l.map fun x => (x : ℚ)) cnt =
      leap_count_loop_total t l cnt := by
  induction l generalizing cnt with
  | nil => rfl
  | cons a rest ih =>
    simp only [List.map_cons, Epoch.leap_count_loop, leap_count_loop_total]
    have hcomp : ((t : ℚ) / ((1000000000 : Int) : ℚ) ≥ (a : ℚ)) ↔ a * 1000000000 ≤ t := by
      rw [ge_iff_le, le_div_iff₀ (by norm_num)]
      constructor
      · intro h; exact_mod_cast h
      · intro h; exact_mod_cast h
    by_cases h : a * 1000000000 ≤ t
    · rw [if_pos (hcomp.mpr h), if_pos h]
      exact ih _
    · rw [if_neg (fun hq => h (hcomp.mp hq)), if_neg h]

theorem Epoch.get_num_leap_seconds_eq (e : Epoch) :
    e.get_num_leap_seconds =
      leap_count_loop_total e.dur.total_nanoseconds LEAP_SECONDS_INT 0 := by
  unfold Epoch.get_num_leap_seconds Duration.in_seconds Duration.in_unit LEAP_SECONDS
  exact leap_count_loop_map _ _ _

theorem Epoch.from_tai_seconds_in_seconds (d : Duration) :
    Epoch.from_tai_seconds d.in_seconds =
      ⟨Duration.from_total_nanoseconds d.total_nanoseconds⟩ := by
  unfold Epoch.from_tai_seconds Duration.in_seconds Duration.in_unit
  rw [Unit.mulRat_div_factor]

theorem Epoch.from_utc_seconds_in_seconds (d : Duration) :
    Epoch.from_utc_seconds d.in_seconds =
      ⟨(Duration.from_total_nanoseconds d.total_nanoseconds).add
        (Unit.Second.mulInt
          (leap_count_loop_total d.total_nanoseconds LEAP_SECONDS_INT 0))⟩ := by
  simp only [Epoch.from_utc_seconds, Epoch.from_tai_seconds_in_seconds,
    Epoch.get_num_leap_seconds_eq, Duration.total_from_total]

theorem leap_count_loop_total_ge (t : Int) (l : List Int) (cnt : Int) (h : 0 ≤ cnt) :
    cnt ≤ leap_count_loop_total t l cnt := by
  induction l generalizing cnt with
  | nil => exact le_refl cnt
  | cons a rest ih =>
    simp only [leap_count_loop_total]
    split
    · have hb : cnt ≤ (if cnt = 0 then 10 else cnt + 1) := by split <;> omega
      have hb0 : (0 : Int) ≤ (if cnt = 0 then 10 else cnt + 1) := by split <;> omega
      exact le_trans hb (ih _ hb0)
    · exact le_refl cnt

theorem leap_count_loop_total_mono (t t' : Int) (h : t ≤ t') (l : List Int) (cnt : Int)
    (hc : 0 ≤ cnt) :
    leap_count_loop_total t l cnt ≤ leap_count_loop_total t' l cnt := by
  induction l generalizing cnt with
  | nil => exact le_refl cnt
  | cons a rest ih =>
    simp only [leap_count_loop_total]
    by_cases h1 : a * 1000000000 ≤ t
    · rw [if_pos h1, if_pos (le_trans h1 h)]
      have hb0 : (0 : Int) ≤ (if cnt = 0 then 10 else cnt + 1) := by split <;> omega
      exact ih _ hb0
    · rw [if_neg h1]
      by_cases h2 : a * 1000000000 ≤ t'
      · rw [if_pos h2]
        have hb : cnt ≤ (if cnt = 0 then 10 else cnt + 1) := by split <;> omega
        have hb0 : (0 : Int) ≤ (if cnt = 0 then 10 else cnt + 1) := by split <;> omega
        exact le_trans hb (leap_count_loop_total_ge t' rest _ hb0)
      · rw [if_neg h2]

theorem ratTrunc_bounds (q : ℚ) : q - 1 < (ratTrunc q : ℚ) ∧ (ratTrunc q : ℚ) < q + 1 ∧
    (0 ≤ q → (ratTrunc q : ℚ) ≤ q) ∧ (q < 0 → q ≤ (ratTrunc q : ℚ)) := by
  unfold ratTrunc
  by_cases h : 0 ≤ q
  · rw [if_pos h]
    have h1 : (⌊q⌋ : ℚ) ≤ q := Int.floor_le q
    have h2 : q - 1 < (⌊q⌋ : ℚ) := Int.sub_one_lt_floor q
    exact ⟨h2, by linarith, fun _ => h1, fun hneg => absurd h (not_le.mpr hneg)⟩
  · rw [if_neg h]
    have h1 : q ≤ (⌈q⌉ : ℚ) := Int.le_ceil q
    have h2 : (⌈q⌉ : ℚ) < q + 1 := Int.ceil_lt_add_one q
    exact ⟨by linarith, h2, fun hpos => absurd hpos h, fun _ => h1⟩

theorem rem_euclid_f64_bounds (lhs rhs : ℚ) (h : 0 < rhs) :
    0 ≤ rem_euclid_f64 lhs rhs ∧ rem_euclid_f64 lhs rhs < rhs := by
  unfold rem_euclid_f64 rust_fmod
  obtain ⟨hb1, hb2, hb3, hb4⟩ := ratTrunc_bounds (lhs / rhs)
  by_cases hq : 0 ≤ lhs / rhs
  · have h1 : (ratTrunc (lhs / rhs) : ℚ) ≤ lhs / rhs := hb3 hq
    have h2 : lhs / rhs - 1 < (ratTrunc (lhs / rhs) : ℚ) := hb1
    have hr0 : 0 ≤ lhs - rhs * (ratTrunc (lhs / rhs) : ℚ) := by
      have := mul_le_mul_of_nonneg_left h1 h.le
      rw [mul_div_cancel₀ lhs h.ne'] at this
      linarith
    have hr1 : lhs - rhs * (ratTrunc (lhs / rhs) : ℚ) < rhs := by
      have := mul_lt_mul_of_pos_left h2 h
      rw [mul_sub, mul_div_cancel₀ lhs h.ne', mul_one] at this
      linarith
    rw [if_neg (by linarith)]
    exact ⟨hr0, hr1⟩
  · push_neg at hq
    have h1 : lhs / rhs ≤ (ratTrunc (lhs / rhs) : ℚ) := hb4 hq
    have h2 : (ratTrunc (lhs / rhs) : ℚ) < lhs / rhs + 1 := hb2
    have hr0 : lhs - rhs * (ratTrunc (lhs / rhs) : ℚ) ≤ 0 := by
      have := mul_le_mul_of_nonneg_left h1 h.le
      rw [mul_div_cancel₀ lhs h.ne'] at this
      linarith
    have hr1 : -rhs < lhs - rhs * (ratTrunc (lhs / rhs) : ℚ) := by
      have := mul_lt_mul_of_pos_left h2 h
      rw [mul_add, mul_div_cancel₀ lhs h.ne', mul_one] at this
      linarith
    by_cases hz : lhs - rhs * (ratTrunc (lhs / rhs) : ℚ) < 0
    · rw [if_pos hz, abs_of_pos h]
      constructor <;> linarith
    · rw [if_neg hz]
      push_neg at hz
      constructor <;> linarith

theorem as_tai_lt_iff (e : Epoch) (c : Int) :
    e.as_tai_seconds < (c : ℚ) ↔ e.dur.total_nanoseconds < c * 1000000000 := by
  unfold Epoch.as_tai_seconds Duration.in_seconds Duration.in_unit
  rw [div_lt_iff₀ (by norm_num [Unit.factor])]
  constructor
  · intro h; exact_mod_cast h
  · intro h; exact_mod_cast h

theorem le_as_tai_iff (e : Epoch) (c : Int) :
    (c : ℚ) ≤ e.as_tai_seconds ↔ c * 1000000000 ≤ e.dur.total_nanoseconds := by
  unfold Epoch.as_tai_seconds Duration.in_seconds Duration.in_unit
  rw [le_div_iff₀ (by norm_num [Unit.factor])]
  constructor
  · intro h; exact_mod_cast h
  · intro h; exact_mod_cast h

theorem as_tai_le_as_tai_iff (e e' : Epoch) :
    e.as_tai_seconds ≤ e'.as_tai_seconds ↔
      e.dur.total_nanoseconds ≤ e'.dur.total_nanoseconds := by
  unfold Epoch.as_tai_seconds Duration.in_seconds Duration.in_unit
  rw [div_le_div_iff_of_pos_right (by norm_num [Unit.factor])]
  exact Int.cast_le

/-- C5: for every Epoch, `as_gpst_nanoseconds` returns `Err(Errors::Overflow)`
exactly when the centuries field of the GPST duration (the TAI duration minus
the GPST offset) is nonzero, and otherwise returns `Ok` with that duration's
nanoseconds field.  Every other accessor of the embedding is a total function,
mirroring its infallible signature in `src/epoch.rs`. -/
theorem claim_C5_gpst_nanoseconds_overflow (e : Epoch) :
    (e.as_gpst_nanoseconds = Except.error Errors.Overflow ↔
      e.as_gpst_duration.centuries ≠ 0) ∧
    (e.as_gpst_duration.centuries = 0 →
      e.as_gpst_nanoseconds = Except.ok e.as_gpst_duration.nanoseconds) := by
  by_cases h : e.as_gpst_duration.centuries = 0
  · simp [Epoch.as_gpst_nanoseconds, Duration.to_parts, h]
  · simp [Epoch.as_gpst_nanoseconds, Duration.to_parts, h]

/-- Witness for C5 at the concrete epoch `from_gpst_nanoseconds 5`. -/
theorem claim_C5_witness :
    (Epoch.from_gpst_nanoseconds 5).as_gpst_duration.centuries = 0 ∧
    (Epoch.from_gpst_nanoseconds 5).as_gpst_nanoseconds =
      Except.ok (Epoch.from_gpst_nanoseconds 5).as_gpst_duration.nanoseconds := by
  have h : (Epoch.from_gpst_nanoseconds 5).as_gpst_duration.centuries = 0 := by
    simp only [Epoch.from_gpst_nanoseconds, gps_offset_dur, Epoch.as_gpst_duration,
      Epoch.as_tai_duration]
    decide
  exact ⟨h, (claim_C5_gpst_nanoseconds_overflow _).2 h⟩

/-- C10: `maybe_from_gregorian` with `TimeSystem::UTC` panics for every input
that passes `is_gregorian_valid`, and `maybe_from_gregorian_utc` (the only UTC
construction path) never reaches that panic. -/
theorem claim_C10_utc_arm_panics :
    (∀ (year : Int) (month day hour minute second nanos : Nat),
        is_gregorian_valid year month day hour minute second nanos = true →
        Epoch.maybe_from_gregorian year month day hour minute second nanos TimeSystem.UTC =
          GregOutcome.panicked) ∧
    (∀ (year : Int) (month day hour minute second nanos : Nat),
        Epoch.maybe_from_gregorian_utc year month day hour minute second nanos ≠
          GregOutcome.panicked) := by
  constructor
  · intro y m d h mi s ns hv
    simp [Epoch.maybe_from_gregorian, hv]
  · intro y m d h mi s ns
    by_cases hv : is_gregorian_valid y m d h mi s ns = true
    · simp [Epoch.maybe_from_gregorian_utc, Epoch.maybe_from_gregorian_tai,
        Epoch.maybe_from_gregorian, hv]
    · rw [Bool.not_eq_true] at hv
      simp [Epoch.maybe_from_gregorian_utc, Epoch.maybe_from_gregorian_tai,
        Epoch.maybe_from_gregorian, hv]

/-- Witness for C10 at the valid date 2000-01-01T00:00:00. -/
theorem claim_C10_witness :
    Epoch.maybe_from_gregorian 2000 1 1 0 0 0 0 TimeSystem.UTC = GregOutcome.panicked ∧
    Epoch.maybe_from_gregorian_utc 2000 1 1 0 0 0 0 ≠ GregOutcome.panicked :=
  ⟨claim_C10_utc_arm_panics.1 2000 1 1 0 0 0 0 (by decide),
    claim_C10_utc_arm_panics.2 2000 1 1 0 0 0 0⟩

/-- C6 (amended): the GPST nanosecond round-trip
`from_gpst_nanoseconds(k).as_gpst_nanoseconds() == Ok(k)` holds exactly for
`k < NANOSECONDS_PER_CENTURY`; beyond one century of nanoseconds the accessor
reports `Overflow` (see the counterexample), well below `u64::MAX − ε`. -/
theorem claim_C6_gpst_nanoseconds_roundtrip (k : Int) (h0 : 0 ≤ k)
    (h1 : k < NANOSECONDS_PER_CENTURY) :
    (Epoch.from_gpst_nanoseconds k).as_gpst_nanoseconds = Except.ok k := by
  have hoff : Unit.Second.mulInt SECONDS_GPS_TAI_OFFSET_I64 =
      Duration.from_total_nanoseconds 2524953619000000000 := by
    unfold Unit.mulInt SECONDS_GPS_TAI_OFFSET_I64
    norm_num [Unit.factor]
  unfold Epoch.from_gpst_nanoseconds Epoch.as_gpst_nanoseconds Epoch.as_gpst_duration
    Epoch.as_tai_duration
  rw [gps_offset_dur, hoff]
  simp only
  have hwf1 : ((Duration.mk 0 k).add
      (Duration.from_total_nanoseconds 2524953619000000000)).wf :=
    Duration.wf_add _ _ (by simpa using h0) (Duration.wf_from_total _).1
  rw [Duration.sub_eq_from_total _ _ hwf1 (Duration.wf_from_total _)]
  rw [Duration.total_add, Duration.total_from_total]
  have hmk : (Duration.mk 0 k).total_nanoseconds = k := by
    unfold Duration.total_nanoseconds; ring
  rw [hmk]
  have hk : k + 2524953619000000000 - 2524953619000000000 = k := by ring
  rw [hk]
  unfold Duration.to_parts Duration.from_total_nanoseconds
  have hc : k / NANOSECONDS_PER_CENTURY = 0 := Int.ediv_eq_zero_of_lt h0 h1
  have hn : k % NANOSECONDS_PER_CENTURY = k := Int.emod_eq_of_lt h0 h1
  simp [hc, hn]

/-- Counterexample to C6 as stated: at `k = 3,155,760,000,000,000,000` (one
century of nanoseconds, far below `u64::MAX` minus the GPST offset), the
round-trip returns `Err(Overflow)`, not `Ok(k)`. -/
theorem claim_C6_counterexample :
    (Epoch.from_gpst_nanoseconds 3155760000000000000).as_gpst_nanoseconds =
        Except.error Errors.Overflow ∧
    (Epoch.from_gpst_nanoseconds 3155760000000000000).as_gpst_nanoseconds ≠
        Except.ok 3155760000000000000 := by
  have h : (Epoch.from_gpst_nanoseconds 3155760000000000000).as_gpst_nanoseconds =
      Except.error Errors.Overflow := by
    simp only [Epoch.from_gpst_nanoseconds, gps_offset_dur]
    decide
  refine ⟨h, ?_⟩
  rw [h]
  decide

/-- Witness for C6 at `k = 42`. -/
theorem claim_C6_witness :
    (0 : Int) ≤ 42 ∧ (42 : Int) < NANOSECONDS_PER_CENTURY ∧
    (Epoch.from_gpst_nanoseconds 42).as_gpst_nanoseconds = Except.ok 42 :=
  ⟨by decide, by decide, claim_C6_gpst_nanoseconds_roundtrip 42 (by decide) (by decide)⟩

/-- C2: `get_num_leap_seconds` returns 0 strictly below the first table entry
(2,272,060,800 TAI seconds), 10 from the first entry up to the second, jumps by
exactly 1 at every subsequent entry, returns 0 at 1971-12-31T23:59:59 TAI and
10 at 1972-01-01T00:00:00 TAI, and is monotone non-decreasing in the TAI
value. -/
theorem claim_C2_leap_second_count :
    (∀ e : Epoch, e.as_tai_seconds < (2272060800 : Int) → e.get_num_leap_seconds = 0) ∧
    (∀ e : Epoch, ((2272060800 : Int) : ℚ) ≤ e.as_tai_seconds →
      e.as_tai_seconds < (2287785600 : Int) → e.get_num_leap_seconds = 10) ∧
    ((Epoch.from_gregorian_tai_hms 1971 12 31 23 59 59).get_num_leap_seconds = 0 ∧
      (Epoch.from_gregorian_tai_hms 1972 1 1 0 0 0).get_num_leap_seconds = 10) ∧
    (∀ i : Fin 27,
      (Epoch.from_tai_duration (Duration.from_total_nanoseconds
          (LEAP_SECONDS_INT.getD (i.val + 1) 0 * 1000000000))).get_num_leap_seconds =
        (Epoch.from_tai_duration (Duration.from_total_nanoseconds
          (LEAP_SECONDS_INT.getD (i.val + 1) 0 * 1000000000 - 1))).get_num_leap_seconds + 1) ∧
    (∀ e e' : Epoch, e.as_tai_seconds ≤ e'.as_tai_seconds →
      e.get_num_leap_seconds ≤ e'.get_num_leap_seconds) := by
  refine ⟨?_, ?_, ⟨?_, ?_⟩, ?_, ?_⟩
  · intro e h
    rw [as_tai_lt_iff] at h
    rw [Epoch.get_num_leap_seconds_eq]
    simp only [LEAP_SECONDS_INT, leap_count_loop_total]
    rw [if_neg (by omega)]
  · intro e h1 h2
    rw [le_as_tai_iff] at h1
    rw [as_tai_lt_iff] at h2
    rw [Epoch.get_num_leap_seconds_eq]
    simp only [LEAP_SECONDS_INT, leap_count_loop_total]
    rw [if_pos (show (2272060800 : Int) * 1000000000 ≤ e.dur.total_nanoseconds by omega)]
    rw [if_neg (show ¬((2287785600 : Int) * 1000000000 ≤ e.dur.total_nanoseconds) by omega)]
    decide
  · rw [Epoch.get_num_leap_seconds_eq]
    decide
  · rw [Epoch.get_num_leap_seconds_eq]
    decide
  · simp only [Epoch.get_num_leap_seconds_eq]
    decide
  · intro e e' h
    rw [as_tai_le_as_tai_iff] at h
    rw [Epoch.get_num_leap_seconds_eq, Epoch.get_num_leap_seconds_eq]
    exact leap_count_loop_total_mono _ _ h _ _ (le_refl 0)

/-- Witness for C2: the below-first-entry case at TAI zero, the first-interval
case at 2,280,000,000 TAI seconds, and monotonicity between the two. -/
theorem claim_C2_witness :
    (Epoch.from_tai_duration (Duration.from_total_nanoseconds 0)).get_num_leap_seconds = 0 ∧
    (Epoch.from_tai_duration
      (Duration.from_total_nanoseconds 2280000000000000000)).get_num_leap_seconds = 10 ∧
    (Epoch.from_tai_duration (Duration.from_total_nanoseconds 0)).get_num_leap_seconds ≤
      (Epoch.from_tai_duration
        (Duration.from_total_nanoseconds 2280000000000000000)).get_num_leap_seconds := by
  refine ⟨claim_C2_leap_second_count.1 _ ?_, claim_C2_leap_second_count.2.1 _ ?_ ?_,
    claim_C2_leap_second_count.2.2.2.2 _ _ ?_⟩
  · rw [as_tai_lt_iff]; decide
  · rw [le_as_tai_iff]; decide
  · rw [as_tai_lt_iff]; decide
  · rw [as_tai_le_as_tai_iff]; decide

theorem greg_utc_1972_06_30_23_59_60 :
    Epoch.from_gregorian_utc 1972 6 30 23 59 60 0 = ⟨⟨0, 2287785609000000000⟩⟩ := by
  have h : Epoch.maybe_from_gregorian_tai 1972 6 30 23 59 60 0 =
      GregOutcome.ok ⟨⟨0, 2287785599000000000⟩⟩ := by decide
  simp only [Epoch.from_gregorian_utc, Epoch.maybe_from_gregorian_utc, h,
    Epoch.get_num_leap_seconds_eq]
  decide

theorem greg_utc_1972_06_30_23_59_59 :
    Epoch.from_gregorian_utc 1972 6 30 23 59 59 0 = ⟨⟨0, 2287785609000000000⟩⟩ := by
  have h : Epoch.maybe_from_gregorian_tai 1972 6 30 23 59 59 0 =
      GregOutcome.ok ⟨⟨0, 2287785599000000000⟩⟩ := by decide
  simp only [Epoch.from_gregorian_utc, Epoch.maybe_from_gregorian_utc, h,
    Epoch.get_num_leap_seconds_eq]
  decide

/-- Counterexample to C3 as stated: the two constructions give bit-identical
epochs, so their difference is not one second. -/
theorem claim_C3_counterexample :
    Epoch.epochSub (Epoch.from_gregorian_utc 1972 6 30 23 59 60 0)
      (Epoch.from_gregorian_utc 1972 6 30 23 59 59 0) ≠ Unit.Second.mulInt 1 := by
  rw [greg_utc_1972_06_30_23_59_60, greg_utc_1972_06_30_23_59_59]
  decide

/-- C3 (amended): `from_gregorian_utc(1972,6,30,23,59,60,0)` and
`from_gregorian_utc(1972,6,30,23,59,59,0)` build the same epoch — the
`second == 60` input is collapsed onto 23:59:59 by the subtract-one-second
encoding before the leap-second lookup — so their difference is exactly
zero. -/
theorem claim_C3_leap_second_collapse :
    Epoch.epochSub (Epoch.from_gregorian_utc 1972 6 30 23 59 60 0)
        (Epoch.from_gregorian_utc 1972 6 30 23 59 59 0) = Duration.mk 0 0 ∧
    Epoch.from_gregorian_utc 1972 6 30 23 59 60 0 =
      Epoch.from_gregorian_utc 1972 6 30 23 59 59 0 := by
  rw [greg_utc_1972_06_30_23_59_60, greg_utc_1972_06_30_23_59_59]
  exact ⟨by decide, rfl⟩

/-- C7: `from_gregorian_utc(2017,1,14,0,31,55,0)` has TAI parts
`(1 century, 537,582,752,000,000,000 ns)`, and at that epoch
`as_tai_seconds − as_utc_seconds = 37`. -/
theorem claim_C7_2017_epoch :
    (Epoch.from_gregorian_utc 2017 1 14 0 31 55 0).to_tai_parts =
      (1, 537582752000000000) ∧
    (Epoch.from_gregorian_utc 2017 1 14 0 31 55 0).as_tai_seconds -
      (Epoch.from_gregorian_utc 2017 1 14 0 31 55 0).as_utc_seconds = 37 := by
  have hE : Epoch.from_gregorian_utc 2017 1 14 0 31 55 0 = ⟨⟨1, 537582752000000000⟩⟩ := by
    have h : Epoch.maybe_from_gregorian_tai 2017 1 14 0 31 55 0 =
        GregOutcome.ok ⟨⟨1, 537582715000000000⟩⟩ := by decide
    simp only [Epoch.from_gregorian_utc, Epoch.maybe_from_gregorian_utc, h,
      Epoch.get_num_leap_seconds_eq]
    decide
  rw [hE]
  refine ⟨by decide, ?_⟩
  have hdu : (⟨⟨1, 537582752000000000⟩⟩ : Epoch).as_utc_duration =
      ⟨1, 537582715000000000⟩ := by
    simp only [Epoch.as_utc_duration, Epoch.get_num_leap_seconds_eq]
    decide
  show (⟨⟨1, 537582752000000000⟩⟩ : Epoch).dur.in_seconds -
    ((⟨⟨1, 537582752000000000⟩⟩ : Epoch).as_utc_duration.in_unit Unit.Second) = 37
  rw [hdu]
  unfold Duration.in_seconds Duration.in_unit Duration.total_nanoseconds
  norm_num [Unit.factor, NANOSECONDS_PER_CENTURY]

theorem Unit.mulRat_intCast (u : Unit) (n : Int) :
    u.mulRat ((n : ℚ)) = Duration.from_total_nanoseconds (n * u.factor) := by
  unfold Unit.mulRat
  rw [show ((n : ℚ) * ((u.factor : Int) : ℚ)) = (((n * u.factor : Int)) : ℚ) by push_cast; ring,
    Int.floor_intCast]

theorem unix_ref_utc_duration :
    UNIX_REF_EPOCH.as_utc_duration = ⟨0, 2208988800000000000⟩ := by
  simp only [Epoch.as_utc_duration, Epoch.get_num_leap_seconds_eq]
  decide

theorem second_mulInt_gps :
    Unit.Second.mulInt SECONDS_GPS_TAI_OFFSET_I64 =
      Duration.from_total_nanoseconds 2524953619000000000 := by
  unfold Unit.mulInt SECONDS_GPS_TAI_OFFSET_I64
  norm_num [Unit.factor]

/-- C1 (amended): the TAI and GPST seconds round-trips are exact for every
normalized epoch; the UTC and UNIX seconds round-trips are exact precisely
when the leap-second lookup is stable, i.e. when the count recomputed at the
UTC-seconds-as-if-TAI instant agrees with the count at the epoch itself (this
fails in the first seconds after each leap insertion — see the
counterexample). -/
theorem claim_C1_seconds_roundtrips (e : Epoch) (hwf : e.dur.wf) :
    (Epoch.from_tai_seconds e.as_tai_seconds = e ∧
      Epoch.from_gpst_seconds e.as_gpst_seconds = e) ∧
    ((Epoch.from_tai_seconds e.as_utc_seconds).get_num_leap_seconds =
        e.get_num_leap_seconds →
      Epoch.from_utc_seconds e.as_utc_seconds = e ∧
      Epoch.from_unix_seconds e.as_unix_seconds = e) := by
  obtain ⟨d⟩ := e
  constructor
  · constructor
    · show Epoch.from_tai_seconds d.in_seconds = Epoch.mk d
      rw [Epoch.from_tai_seconds_in_seconds, Duration.from_total_total d hwf]
    · show Epoch.from_gpst_seconds ((Epoch.mk d).as_gpst_duration.in_seconds) = Epoch.mk d
      unfold Epoch.from_gpst_seconds
      rw [Epoch.from_tai_seconds_in_seconds, gps_offset_dur]
      have htg : (Epoch.mk d).as_gpst_duration.total_nanoseconds =
          d.total_nanoseconds - 2524953619000000000 := by
        unfold Epoch.as_gpst_duration Epoch.as_tai_duration
        rw [Duration.total_sub, second_mulInt_gps, Duration.total_from_total]
      refine congrArg Epoch.mk ?_
      refine Duration.wf_eq_of_total_eq _ _
        (Duration.wf_add _ _ (Duration.wf_from_total _).1 (Duration.wf_from_total _).1) hwf ?_
      rw [Duration.total_add, Duration.total_from_total, Duration.total_from_total, htg]
      ring
  · intro hstab
    have hstab' : leap_count_loop_total ((Epoch.mk d).as_utc_duration.total_nanoseconds)
        LEAP_SECONDS_INT 0 = (Epoch.mk d).get_num_leap_seconds := by
      have h1 : Epoch.from_tai_seconds (Epoch.mk d).as_utc_seconds =
          ⟨Duration.from_total_nanoseconds
            ((Epoch.mk d).as_utc_duration.total_nanoseconds)⟩ :=
        Epoch.from_tai_seconds_in_seconds _
      rw [h1] at hstab
      simp only [Epoch.get_num_leap_seconds_eq, Duration.total_from_total] at hstab
      rw [Epoch.get_num_leap_seconds_eq]
      exact hstab
    have hfac : Unit.Second.factor = 1000000000 := rfl
    have hutc_total : (Epoch.mk d).as_utc_duration.total_nanoseconds =
        d.total_nanoseconds + (-(Epoch.mk d).get_num_leap_seconds) * 1000000000 := by
      unfold Epoch.as_utc_duration
      rw [Duration.total_add, Unit.mulInt_total, hfac]
    constructor
    · show Epoch.from_utc_seconds ((Epoch.mk d).as_utc_duration.in_seconds) = Epoch.mk d
      rw [Epoch.from_utc_seconds_in_seconds, hstab']
      refine congrArg Epoch.mk ?_
      refine Duration.wf_eq_of_total_eq _ _
        (Duration.wf_add _ _ (Duration.wf_from_total _).1 (Unit.mulInt_wf _ _).1) hwf ?_
      rw [Duration.total_add, Duration.total_from_total, Unit.mulInt_total, hfac, hutc_total]
      ring
    · have hunix_total : (Epoch.mk d).as_unix_duration.total_nanoseconds =
          (d.total_nanoseconds + (-(Epoch.mk d).get_num_leap_seconds) * 1000000000) -
            2208988800000000000 := by
        unfold Epoch.as_unix_duration
        rw [Duration.total_sub, Duration.total_add, Unit.mulInt_total, hfac,
          unix_ref_utc_duration]
        unfold Duration.total_nanoseconds
        ring
      unfold Epoch.from_unix_seconds
      rw [unix_ref_utc_duration]
      rw [show (Epoch.mk d).as_unix_seconds =
          (((Epoch.mk d).as_unix_duration.total_nanoseconds : ℚ) /
            ((Unit.Second.factor : Int) : ℚ)) from rfl]
      rw [Unit.mulRat_div_factor]
      rw [show (((⟨0, 2208988800000000000⟩ : Duration).add
          (Duration.from_total_nanoseconds
            ((Epoch.mk d).as_unix_duration.total_nanoseconds))).in_unit Unit.Second) =
          (((⟨0, 2208988800000000000⟩ : Duration).add
            (Duration.from_total_nanoseconds
              ((Epoch.mk d).as_unix_duration.total_nanoseconds))).in_seconds) from rfl]
      rw [Epoch.from_utc_seconds_in_seconds]
      have hD : ((⟨0, 2208988800000000000⟩ : Duration).add
          (Duration.from_total_nanoseconds
            ((Epoch.mk d).as_unix_duration.total_nanoseconds))).total_nanoseconds =
          (Epoch.mk d).as_utc_duration.total_nanoseconds := by
        rw [Duration.total_add, Duration.total_from_total, hunix_total, hutc_total]
        unfold Duration.total_nanoseconds
        ring
      rw [hD, hstab']
      refine congrArg Epoch.mk ?_
      refine Duration.wf_eq_of_total_eq _ _
        (Duration.wf_add _ _ (Duration.wf_from_total _).1 (Unit.mulInt_wf _ _).1) hwf ?_
      rw [Duration.total_add, Duration.total_from_total, Unit.mulInt_total, hfac, hutc_total]
      ring

/-- Counterexample to C1 as stated: at the epoch `from_tai_seconds(2272060800)`
(the very instant of the first leap insertion) the UTC and UNIX seconds
round-trips land 10 seconds early, because the leap count recomputed at the
UTC-as-if-TAI instant is 0 rather than 10. -/
theorem claim_C1_counterexample :
    Epoch.from_utc_seconds ((Epoch.from_tai_seconds 2272060800).as_utc_seconds) ≠
        Epoch.from_tai_seconds 2272060800 ∧
    Epoch.from_unix_seconds ((Epoch.from_tai_seconds 2272060800).as_unix_seconds) ≠
        Epoch.from_tai_seconds 2272060800 := by
  have he : Epoch.from_tai_seconds (2272060800 : ℚ) = ⟨⟨0, 2272060800000000000⟩⟩ := by
    unfold Epoch.from_tai_seconds
    rw [show (2272060800 : ℚ) = ((2272060800 : Int) : ℚ) by norm_cast, Unit.mulRat_intCast]
    decide
  rw [he]
  have hdu : (⟨⟨0, 2272060800000000000⟩⟩ : Epoch).as_utc_duration =
      ⟨0, 2272060790000000000⟩ := by
    simp only [Epoch.as_utc_duration, Epoch.get_num_leap_seconds_eq]
    decide
  constructor
  · rw [show (⟨⟨0, 2272060800000000000⟩⟩ : Epoch).as_utc_seconds =
        ((⟨⟨0, 2272060800000000000⟩⟩ : Epoch).as_utc_duration.in_seconds) from rfl, hdu]
    rw [Epoch.from_utc_seconds_in_seconds]
    decide
  · unfold Epoch.from_unix_seconds
    rw [unix_ref_utc_duration]
    rw [show (⟨⟨0, 2272060800000000000⟩⟩ : Epoch).as_unix_seconds =
        (((⟨⟨0, 2272060800000000000⟩⟩ : Epoch).as_unix_duration.total_nanoseconds : ℚ) /
          ((Unit.Second.factor : Int) : ℚ)) from rfl]
    rw [Unit.mulRat_div_factor]
    rw [show (((⟨0, 2208988800000000000⟩ : Duration).add
        (Duration.from_total_nanoseconds
          ((⟨⟨0, 2272060800000000000⟩⟩ : Epoch).as_unix_duration.total_nanoseconds))).in_unit
          Unit.Second) =
        (((⟨0, 2208988800000000000⟩ : Duration).add
          (Duration.from_total_nanoseconds
            ((⟨⟨0, 2272060800000000000⟩⟩ : Epoch).as_unix_duration.total_nanoseconds))).in_seconds)
        from rfl]
    rw [Epoch.from_utc_seconds_in_seconds]
    simp only [Epoch.as_unix_duration, Epoch.get_num_leap_seconds_eq, unix_ref_utc_duration]
    decide

/-- Witness for C1 at the 2017 epoch `(1 century, 537582752000000000 ns)`, where
the leap-second lookup is stable. -/
theorem claim_C1_witness :
    (⟨⟨1, 537582752000000000⟩⟩ : Epoch).dur.wf ∧
    Epoch.from_tai_seconds (⟨⟨1, 537582752000000000⟩⟩ : Epoch).as_tai_seconds =
      ⟨⟨1, 537582752000000000⟩⟩ ∧
    Epoch.from_gpst_seconds (⟨⟨1, 537582752000000000⟩⟩ : Epoch).as_gpst_seconds =
      ⟨⟨1, 537582752000000000⟩⟩ ∧
    Epoch.from_utc_seconds (⟨⟨1, 537582752000000000⟩⟩ : Epoch).as_utc_seconds =
      ⟨⟨1, 537582752000000000⟩⟩ ∧
    Epoch.from_unix_seconds (⟨⟨1, 537582752000000000⟩⟩ : Epoch).as_unix_seconds =
      ⟨⟨1, 537582752000000000⟩⟩ := by
  have hwf : (⟨⟨1, 537582752000000000⟩⟩ : Epoch).dur.wf := by decide
  have hstab : (Epoch.from_tai_seconds
      (⟨⟨1, 537582752000000000⟩⟩ : Epoch).as_utc_seconds).get_num_leap_seconds =
      (⟨⟨1, 537582752000000000⟩⟩ : Epoch).get_num_leap_seconds := by
    rw [show (⟨⟨1, 537582752000000000⟩⟩ : Epoch).as_utc_seconds =
        ((⟨⟨1, 537582752000000000⟩⟩ : Epoch).as_utc_duration.in_seconds) from rfl]
    rw [Epoch.from_tai_seconds_in_seconds]
    simp only [Epoch.get_num_leap_seconds_eq, Duration.total_from_total,
      Epoch.as_utc_duration]
    decide
  obtain ⟨⟨h1, h2⟩, h3⟩ := claim_C1_seconds_roundtrips ⟨⟨1, 537582752000000000⟩⟩ hwf
  exact ⟨hwf, h1, h2, (h3 hstab).1, (h3 hstab).2⟩

/-- C9: the seconds component computed by `compute_gregorian` is at most 59 on
every input, so `as_gregorian_utc` never reproduces the leap-second literal
`second == 60`. -/
theorem claim_C9_seconds_at_most_59 :
    (∀ q : ℚ, (Epoch.compute_gregorian q).second ≤ 59) ∧
    (∀ e : Epoch, e.as_gregorian_utc.second ≤ 59) := by
  have key : ∀ x : ℚ, (⌊rem_euclid_f64 x 60⌋).toNat ≤ 59 := by
    intro x
    obtain ⟨h0, h1⟩ := rem_euclid_f64_bounds x 60 (by norm_num)
    have hfl : ⌊rem_euclid_f64 x 60⌋ < 60 := by
      rw [Int.floor_lt]
      exact_mod_cast h1
    omega
  have hmain : ∀ q : ℚ, (Epoch.compute_gregorian q).second ≤ 59 := by
    intro q
    simp only [Epoch.compute_gregorian, div_rem_f64]
    exact key _
  exact ⟨hmain, fun e => hmain _⟩

theorem emod_add_sub_one (t s : Int) (hpos : 0 < s) (hr : t % s ≠ 0) :
    (t + s - 1) % s = t % s - 1 := by
  have h0 : 0 ≤ t % s := Int.emod_nonneg t (ne_of_gt hpos)
  have h1 : t % s < s := Int.emod_lt_of_pos t hpos
  have hs2 : 2 ≤ s := by
    rcases (by omega : s = 1 ∨ 2 ≤ s) with h | h
    · rw [h] at hr
      simp [Int.emod_one] at hr
    · exact h
  have heq : t + s - 1 = (t - 1) + s * 1 := by ring
  rw [heq, Int.add_mul_emod_self_left]
  have h2 : (t - 1) % s = ((t % s) - (1 % s)) % s := by
    conv_lhs => rw [Int.sub_emod]
  have h3 : (1 : Int) % s = 1 := Int.emod_eq_of_lt (by omega) (by omega)
  rw [h2, h3]
  exact Int.emod_eq_of_lt (by omega) (by omega)

theorem Duration.floor_total (d step : Duration) :
    (d.floor step).total_nanoseconds =
      d.total_nanoseconds - d.total_nanoseconds % step.total_nanoseconds :=
  Duration.total_from_total _

theorem Duration.ceil_total (d step : Duration) (hpos : 0 < step.total_nanoseconds) :
    (d.ceil step).total_nanoseconds =
      if d.total_nanoseconds % step.total_nanoseconds = 0 then d.total_nanoseconds
      else d.total_nanoseconds + step.total_nanoseconds -
        d.total_nanoseconds % step.total_nanoseconds := by
  unfold Duration.ceil
  by_cases h : d.total_nanoseconds % step.total_nanoseconds = 0
  · rw [if_pos h, if_pos h]
  · rw [if_neg h, if_neg h]
    unfold Duration.floor
    simp only [Duration.total_from_total]
    rw [emod_add_sub_one _ _ hpos h]
    ring

theorem Duration.ceil_wf (d step : Duration) (hd : d.wf) : (d.ceil step).wf := by
  unfold Duration.ceil
  split
  · exact hd
  · exact Duration.wf_from_total _

/-- C8: for every normalized epoch and strictly positive normalized step,
`floor(step) ≤ self ≤ ceil(step)`, `ceil − floor` is zero or exactly the step,
and `round` picks whichever of floor and ceil is nearer with exact ties going
to ceil. -/
theorem claim_C8_floor_ceil_round (e : Epoch) (step : Duration) (hwf : e.dur.wf)
    (hs : step.wf) (hpos : 0 < step.total_nanoseconds) :
    (Epoch.le (e.floor step) e ∧ Epoch.le e (e.ceil step)) ∧
    ((e.ceil step).epochSub (e.floor step) = Duration.mk 0 0 ∨
      (e.ceil step).epochSub (e.floor step) = step) ∧
    (e.round step = if (e.epochSub (e.floor step)).total_nanoseconds <
        ((e.ceil step).epochSub e).total_nanoseconds then e.floor step else e.ceil step) := by
  have hr0 : 0 ≤ e.dur.total_nanoseconds % step.total_nanoseconds :=
    Int.emod_nonneg _ (ne_of_gt hpos)
  have hr1 : e.dur.total_nanoseconds % step.total_nanoseconds < step.total_nanoseconds :=
    Int.emod_lt_of_pos _ hpos
  have hfwf : (e.dur.floor step).wf := Duration.wf_from_total _
  have hcwf : (e.dur.ceil step).wf := Duration.ceil_wf _ _ hwf
  have hft : (e.dur.floor step).total_nanoseconds =
      e.dur.total_nanoseconds - e.dur.total_nanoseconds % step.total_nanoseconds :=
    Duration.floor_total _ _
  have hct := Duration.ceil_total e.dur step hpos
  simp only [Epoch.floor, Epoch.ceil, Epoch.round, Epoch.epochSub, Epoch.le]
  refine ⟨⟨?_, ?_⟩, ?_, ?_⟩
  · rw [Duration.le_iff_total _ _ hfwf hwf, hft]
    omega
  · rw [Duration.le_iff_total _ _ hwf hcwf, hct]
    split <;> omega
  · by_cases hr : e.dur.total_nanoseconds % step.total_nanoseconds = 0
    · left
      rw [Duration.sub_eq_from_total _ _ hcwf hfwf, hct, hft, if_pos hr, hr]
      norm_num
      decide
    · right
      rw [Duration.sub_eq_from_total _ _ hcwf hfwf, hct, hft, if_neg hr]
      rw [show e.dur.total_nanoseconds + step.total_nanoseconds -
          e.dur.total_nanoseconds % step.total_nanoseconds -
          (e.dur.total_nanoseconds - e.dur.total_nanoseconds % step.total_nanoseconds) =
          step.total_nanoseconds by ring]
      exact Duration.from_total_total step hs
  · have hdf : (e.dur.sub (e.dur.floor step)).total_nanoseconds =
        e.dur.total_nanoseconds % step.total_nanoseconds := by
      rw [Duration.total_sub, hft]
      ring
    have hdc : ((e.dur.ceil step).sub e.dur).total_nanoseconds =
        (if e.dur.total_nanoseconds % step.total_nanoseconds = 0 then 0
          else step.total_nanoseconds - e.dur.total_nanoseconds % step.total_nanoseconds) := by
      rw [Duration.total_sub, hct]
      split <;> ring
    unfold Duration.round
    by_cases hr : e.dur.total_nanoseconds % step.total_nanoseconds = 0
    · rw [if_pos (by omega), if_neg (by rw [hdf, hdc, if_pos hr]; omega)]
      unfold Duration.ceil
      rw [if_pos hr]
      unfold Duration.floor
      rw [hr]
      rw [show e.dur.total_nanoseconds - 0 = e.dur.total_nanoseconds by ring]
      exact congrArg Epoch.mk (Duration.from_total_total e.dur hwf)
    · by_cases hhalf : 2 * (e.dur.total_nanoseconds % step.total_nanoseconds) <
          step.total_nanoseconds
      · rw [if_pos hhalf, if_pos (by rw [hdf, hdc, if_neg hr]; omega)]
      · rw [if_neg hhalf, if_neg (by rw [hdf, hdc, if_neg hr]; omega)]

set_option maxRecDepth 4000 in
/-- Witness for C8 at the documentation example 2022-05-20T17:57:43 TAI with a
one-hour step. -/
theorem claim_C8_witness :
    (Epoch.le ((Epoch.from_gregorian_tai_hms 2022 5 20 17 57 43).floor (Unit.Hour.mulInt 1))
        (Epoch.from_gregorian_tai_hms 2022 5 20 17 57 43) ∧
      Epoch.le (Epoch.from_gregorian_tai_hms 2022 5 20 17 57 43)
        ((Epoch.from_gregorian_tai_hms 2022 5 20 17 57 43).ceil (Unit.Hour.mulInt 1))) ∧
    (((Epoch.from_gregorian_tai_hms 2022 5 20 17 57 43).ceil (Unit.Hour.mulInt 1)).epochSub
        ((Epoch.from_gregorian_tai_hms 2022 5 20 17 57 43).floor (Unit.Hour.mulInt 1)) =
        Duration.mk 0 0 ∨
      ((Epoch.from_gregorian_tai_hms 2022 5 20 17 57 43).ceil (Unit.Hour.mulInt 1)).epochSub
        ((Epoch.from_gregorian_tai_hms 2022 5 20 17 57 43).floor (Unit.Hour.mulInt 1)) =
        Unit.Hour.mulInt 1) ∧
    ((Epoch.from_gregorian_tai_hms 2022 5 20 17 57 43).round (Unit.Hour.mulInt 1) =
      if ((Epoch.from_gregorian_tai_hms 2022 5 20 17 57 43).epochSub
            ((Epoch.from_gregorian_tai_hms 2022 5 20 17 57 43).floor
              (Unit.Hour.mulInt 1))).total_nanoseconds <
          (((Epoch.from_gregorian_tai_hms 2022 5 20 17 57 43).ceil
              (Unit.Hour.mulInt 1)).epochSub
            (Epoch.from_gregorian_tai_hms 2022 5 20 17 57 43)).total_nanoseconds then
        (Epoch.from_gregorian_tai_hms 2022 5 20 17 57 43).floor (Unit.Hour.mulInt 1)
      else
        (Epoch.from_gregorian_tai_hms 2022 5 20 17 57 43).ceil (Unit.Hour.mulInt 1)) :=
  claim_C8_floor_ceil_round (Epoch.from_gregorian_tai_hms 2022 5 20 17 57 43)
    (Unit.Hour.mulInt 1) (by decide) (by decide) (by decide)

/-- Counterexample to C4 as stated: the code accepts February 30 of the leap
year 2000 (the claim's Gregorian day bound says 29), and accepts
`nanos = 10^9` (the claim requires `ns < 10^9`). -/
theorem claim_C4_counterexample :
    (is_gregorian_valid 2000 2 30 0 0 0 0 = true ∧
      ¬ spec_gregorian_valid 2000 2 30 0 0 0 0) ∧
    (is_gregorian_valid 2000 1 1 0 0 0 1000000000 = true ∧
      ¬ spec_gregorian_valid 2000 1 1 0 0 0 1000000000) := by
  decide

/-- C4 (amended): `is_gregorian_valid` returns true iff `1 ≤ m ≤ 12`,
`1 ≤ d ≤ days_in(m, y)` — where February of a leap year admits up to 31 days —
`h ≤ 24`, `mi ≤ 59`, `ns ≤ 10^9`, and `s ≤ 59` except that `s = 60` is also
accepted exactly on the claim's leap minutes. -/
theorem claim_C4_validity (year : Int) (month day hour minute second nanos : Nat) :
    is_gregorian_valid year month day hour minute second nanos = true ↔
      amended_gregorian_valid year month day hour minute second nanos := by
  unfold is_gregorian_valid amended_gregorian_valid amended_days_in spec_leap_minute
  simp only [List.getD_eq_getElem?_getD, Bool.or_eq_true, Bool.and_eq_true, beq_iff_eq,
    decide_eq_true_eq, bne_iff_ne, Bool.not_eq_true', Bool.ite_eq_true_distrib]
  simp
  constructor
  · rintro ⟨⟨⟨⟨⟨⟨⟨⟨hm0, hmle⟩, hd0⟩, hd31⟩, hhle⟩, hmile⟩, hsle⟩, hnsle⟩, hday⟩
    refine ⟨by omega, hmle, by omega, ?_, hhle, hmile, hnsle, ?_⟩
    · by_cases hm2 : month = 2 ∧ is_leap_year year = true
      · rw [if_pos hm2]
        exact hd31
      · rw [if_neg hm2]
        by_cases hlt : USUAL_DAYS_PER_MONTH[month - 1]?.getD 0 < day
        · exact absurd (hday hlt) hm2
        · omega
    · by_cases hA : ((((month = 12 ∨ month = 6) ∧
          day = USUAL_DAYS_PER_MONTH[month - 1]?.getD 0) ∧ hour = 23) ∧ minute = 59) ∧
          (month = 6 ∧ year ∈ JULY_YEARS ∨ month = 12 ∧ year + 1 ∈ JANUARY_YEARS)
      · rw [if_pos hA] at hsle
        by_cases hs : second ≤ 59
        · exact Or.inl hs
        · refine Or.inr ⟨by omega, ?_⟩
          obtain ⟨⟨⟨⟨hm12, hdu⟩, hh23⟩, hmi59⟩, hor⟩ := hA
          rcases hor with ⟨h6, hjl⟩ | ⟨h12, hja⟩
          · subst h6
            simp [USUAL_DAYS_PER_MONTH] at hdu
            exact Or.inl ⟨rfl, hdu, hh23, hmi59, hjl⟩
          · subst h12
            simp [USUAL_DAYS_PER_MONTH] at hdu
            exact Or.inr ⟨rfl, hdu, hh23, hmi59, hja⟩
      · rw [if_neg hA] at hsle
        exact Or.inl hsle
  · rintro ⟨hm1, hmle, hd1, hdle, hhle, hmile, hnsle, hsec⟩
    have hub : ∀ m : Nat, m < 13 → (USUAL_DAYS_PER_MONTH[m - 1]?.getD 0) ≤ 31 := by decide
    have hd31 : day ≤ 31 := by
      by_cases hm2 : month = 2 ∧ is_leap_year year = true
      · rw [if_pos hm2] at hdle
        exact hdle
      · rw [if_neg hm2] at hdle
        exact le_trans hdle (hub month (by omega))
    refine ⟨⟨⟨⟨⟨⟨⟨⟨by omega, hmle⟩, by omega⟩, hd31⟩, hhle⟩, hmile⟩, ?_⟩, hnsle⟩, ?_⟩
    · by_cases hA : ((((month = 12 ∨ month = 6) ∧
          day = USUAL_DAYS_PER_MONTH[month - 1]?.getD 0) ∧ hour = 23) ∧ minute = 59) ∧
          (month = 6 ∧ year ∈ JULY_YEARS ∨ month = 12 ∧ year + 1 ∈ JANUARY_YEARS)
      · rw [if_pos hA]
        rcases hsec with h | ⟨h60, _⟩ <;> omega
      · rw [if_neg hA]
        rcases hsec with h | ⟨h60, hlm⟩
        · exact h
        · exfalso
          rcases hlm with ⟨h6, hd30, hh23, hmi59, hjl⟩ | ⟨h12, hd31x, hh23, hmi59, hja⟩
          · subst h6
            exact hA ⟨⟨⟨⟨Or.inr rfl, by rw [hd30]; rfl⟩, hh23⟩, hmi59⟩, Or.inl ⟨rfl, hjl⟩⟩
          · subst h12
            exact hA ⟨⟨⟨⟨Or.inl rfl, by rw [hd31x]; rfl⟩, hh23⟩, hmi59⟩, Or.inr ⟨rfl, hja⟩⟩
    · intro hlt
      by_cases hm2 : month = 2 ∧ is_leap_year year = true
      · exact hm2
      · rw [if_neg hm2] at hdle
        omega

/-- Witness for C4: the leap-second literal 1972-06-30T23:59:60 is accepted,
by transporting `amended_gregorian_valid` through the equivalence. -/
theorem claim_C4_witness :
    is_gregorian_valid 1972 6 30 23 59 60 0 = true :=
  (claim_C4_validity 1972 6 30 23 59 60 0).mpr (by decide)

end Hifitime
